import Mathlib

/-!
Shallow embedding of the NightModeBot repository (src/config.py, src/db_manager.py,
src/handlers.py, src/jobs.py, src/main.py, src/utils.py) together with theorems
settling the frozen claims about its scheduling, cancellation and reconciliation
logic.  Each definition is translated from the named source function; external
collaborators (the Firestore client, the Telegram transport, the clock) are
modelled as explicit inputs.
-/

namespace NightMode

/-! ## Python level helpers -/

/-- Python exceptions that the embedded code can raise or catch. -/
inductive PyExn
  | valueError
  | typeError
  | nameError (missing : String)
  | conflictingIdError
  | jobLookupError
deriving Repr, DecidableEq

/-- Split of a character list at every occurrence of the separator, matching
the Python str.split(sep) semantics with a one-character separator: the empty
string yields one empty part, and adjacent separators yield empty parts. -/
def splitOnChar (c : Char) : List Char → List (List Char)
  | [] => [[]]
  | x :: xs =>
    let r := splitOnChar c xs
    if x = c then [] :: r
    else
      match r with
      | [] => [[x]]
      | y :: ys => (x :: y) :: ys

/-- Value of a nonempty all-digit character list, base 10. -/
def digitsToNat? (cs : List Char) : Option Nat :=
  if cs = [] then none
  else if cs.all Char.isDigit then
    some (cs.foldl (fun n c => 10 * n + (c.toNat - 48)) 0)
  else none

/-- Whitespace trim from both ends of a character list, as int() performs. -/
def trimChars (cs : List Char) : List Char :=
  ((cs.dropWhile Char.isWhitespace).reverse.dropWhile Char.isWhitespace).reverse

/-- Model of the Python builtin int() applied to a string: surrounding
whitespace is stripped, an optional sign is allowed, then a nonempty digit
run; anything else raises ValueError (modelled as none). -/
def pyInt? (s : String) : Option Int :=
  match trimChars s.data with
  | '-' :: rest => (digitsToNat? rest).map (fun n => -(n : Int))
  | '+' :: rest => (digitsToNat? rest).map (fun n => (n : Int))
  | cs => (digitsToNat? cs).map (fun n => (n : Int))

/-- Model of datetime.strptime(s, "%H:%M") used at handlers.py:177, returning
the parsed (hour, minute) or none for ValueError.  CPython compiles this
format to the regular expression (2[0-3]|[0-1]\d|\d):([0-5]\d|\d) and demands
that the whole string is consumed, which is equivalent to: exactly one colon,
each side a one or two digit number, hour at most 23, minute at most 59.
Note that one-digit components such as "9:30" are accepted. -/
def strptimeHM (s : String) : Option (Nat × Nat) :=
  match splitOnChar ':' s.data with
  | [hs, ms] =>
    match digitsToNat? hs, digitsToNat? ms with
    | some h, some m =>
      if 1 ≤ hs.length && hs.length ≤ 2 && h ≤ 23 &&
         1 ≤ ms.length && ms.length ≤ 2 && m ≤ 59
      then some (h, m) else none
    | _, _ => none
  | _ => none

/-- Model of the Python statement hour, minute = map(int, s.split(':'))
(handlers.py:211 and main.py:101): ValueError (none) unless the split yields
exactly two parts and both parse as ints. -/
def pyMapInt2 (s : String) : Option (Int × Int) :=
  match splitOnChar ':' s.data with
  | [a, b] =>
    match pyInt? (String.mk a), pyInt? (String.mk b) with
    | some x, some y => some (x, y)
    | _, _ => none
  | _ => none

/-! ## Python dicts (user settings documents) -/

/-- A Python dict with string keys and integer values, as used for the user
settings document (fields delete_timer_minutes, delete_timer_active_chat_id,
and advisory numeric fields such as last_active). -/
abbrev Dict := List (String × Int)

def dictGet? (d : Dict) (k : String) : Option Int :=
  (d.find? (fun kv => kv.1 = k)).map (fun kv => kv.2)

/-- Python dict assignment d[k] = v: replaces in place or appends. -/
def dictSet (d : Dict) (k : String) (v : Int) : Dict :=
  if d.any (fun kv => kv.1 = k) then
    d.map (fun kv => if kv.1 = k then (k, v) else kv)
  else d ++ [(k, v)]

/-- Python del d[k]. -/
def dictDel (d : Dict) (k : String) : Dict :=
  d.filter (fun kv => kv.1 ≠ k)

/-- Firestore set(data, merge=True) semantics (db_manager.py:39): every field
present in data is written into the document, fields absent from data are
left untouched.  In particular a key deleted from the Python dict before the
call is NOT removed from the stored document. -/
def mergeSet (doc : Dict) (data : Dict) : Dict :=
  data.foldl (fun acc kv => dictSet acc kv.1 kv.2) doc

/-! ## The Firestore store model (external collaborator of db_manager.py) -/

/-- A scheduled media document as written by add_scheduled_media
(db_manager.py:56-64).  The created_at server timestamp is advisory and not
read anywhere, so it is omitted from the model. -/
structure ScheduledItem where
  id : String
  chat_id : Int
  message_id : Int
  media_file_id : String
  media_type : String
  schedule_time : String
  user_id : Int
deriving Repr, DecidableEq

def assocGet {α : Type} (l : List (Int × α)) (k : Int) : Option α :=
  (l.find? (fun kv => kv.1 = k)).map (fun kv => kv.2)

def assocSet {α : Type} (l : List (Int × α)) (k : Int) (v : α) : List (Int × α) :=
  if l.any (fun kv => kv.1 = k) then
    l.map (fun kv => if kv.1 = k then (k, v) else kv)
  else l ++ [(k, v)]

/-- State of the remote Firestore database: per-user settings document
(users/{uid}/settings/night_mode) and per-user scheduled_media collection.
nextId models the server-side assignment of fresh document ids on add. -/
structure Firestore where
  settings : List (Int × Dict)
  scheduled : List (Int × List ScheduledItem)
  nextId : Nat
deriving Repr, DecidableEq

/-- Document id assigned by the store for the n-th created document. -/
def genDocId (n : Nat) : String := "doc" ++ toString n

/-- Outcome oracle for the external Firestore client: each flag tells whether
the corresponding network call raises an exception (which every db_manager
function catches and turns into its default return value). -/
structure FailSpec where
  getRaises : Bool
  setRaises : Bool
  addRaises : Bool
  listRaises : Bool
  deleteRaises : Bool
deriving Repr, DecidableEq

def noFailSpec : FailSpec := ⟨false, false, false, false, false⟩

def allFailSpec : FailSpec := ⟨true, true, true, true, true⟩

def emptyFs : Firestore := ⟨[], [], 0⟩

/-! ## db_manager.py -/

/-- db_manager.get_user_settings (db_manager.py:8-25): returns {} when the DB
handle is unavailable, {} when the fetch raises, the document dict when the
document exists, {} otherwise. -/
def get_user_settings (db? : Option Firestore) (fail : FailSpec) (user_id : Int) : Dict :=
  match db? with
  | none => []
  | some db =>
    if fail.getRaises then []
    else (assocGet db.settings user_id).getD []

/-- db_manager.update_user_settings (db_manager.py:27-42): no-op when the DB
handle is unavailable or the write raises; otherwise a merge-set of the given
dict into the settings document (created if absent). -/
def update_user_settings (db? : Option Firestore) (fail : FailSpec) (user_id : Int)
    (settings : Dict) : Option Firestore :=
  match db? with
  | none => none
  | some db =>
    if fail.setRaises then some db
    else
      let current := (assocGet db.settings user_id).getD []
      some { db with settings := assocSet db.settings user_id (mergeSet current settings) }

/-- db_manager.add_scheduled_media (db_manager.py:44-69): returns "" when the
DB handle is unavailable or the write raises; otherwise stores the document
and returns the store-assigned id. -/
def add_scheduled_media (db? : Option Firestore) (fail : FailSpec) (user_id chat_id : Int)
    (message_id : Int) (media_file_id media_type schedule_time : String) :
    Option Firestore × String :=
  match db? with
  | none => (none, "")
  | some db =>
    if fail.addRaises then (some db, "")
    else
      let docId := genDocId db.nextId
      let item : ScheduledItem :=
        ⟨docId, chat_id, message_id, media_file_id, media_type, schedule_time, user_id⟩
      let cur := (assocGet db.scheduled user_id).getD []
      (some { db with
                scheduled := assocSet db.scheduled user_id (cur ++ [item]),
                nextId := db.nextId + 1 },
       docId)

/-- db_manager.get_all_scheduled_media (db_manager.py:71-87): empty list when
the DB handle is unavailable or the query raises, otherwise the stored items
of that user (each carrying its document id). -/
def get_all_scheduled_media (db? : Option Firestore) (fail : FailSpec) (user_id : Int) :
    List ScheduledItem :=
  match db? with
  | none => []
  | some db =>
    if fail.listRaises then []
    else (assocGet db.scheduled user_id).getD []

/-- db_manager.delete_scheduled_media (db_manager.py:89-104): no-op when the
DB handle is unavailable or the delete raises; otherwise removes the document
(deleting an absent document succeeds silently, matching Firestore). -/
def delete_scheduled_media (db? : Option Firestore) (fail : FailSpec) (user_id : Int)
    (media_id : String) : Option Firestore :=
  match db? with
  | none => none
  | some db =>
    if fail.deleteRaises then some db
    else
      let cur := (assocGet db.scheduled user_id).getD []
      some { db with
               scheduled := assocSet db.scheduled user_id
                 (cur.filter (fun it => it.id ≠ media_id)) }

/-- Observation helper: whether the store currently holds a scheduled media
document with the given id for the given user. -/
def storeHasItem (db? : Option Firestore) (user_id : Int) (sid : String) : Bool :=
  match db? with
  | none => false
  | some db => ((assocGet db.scheduled user_id).getD []).any (fun it => it.id = sid)

/-! ## The APScheduler model (in-memory job table) -/

/-- Trigger of an APScheduler job: either a daily cron firing at hour:minute:00
UTC, or a one-shot date trigger at an absolute instant (seconds). -/
inductive Trigger
  | cron (hour minute : Int)
  | date (runAt : Int)
deriving Repr, DecidableEq

/-- Callback plus bound argument tuple of a job.  Both callbacks are also
bound to the bot instance (an opaque transport handle carrying no state in
this model, so it is not recorded here). -/
inductive JobCallback
  | sendScheduledMedia (user_id chat_id : Int) (media_file_id media_type schedule_id : String)
  | deleteMessage (chat_id message_id : Int)
deriving Repr, DecidableEq

structure Job where
  id : String
  trigger : Trigger
  callback : JobCallback
deriving Repr, DecidableEq

/-- The in-memory job table of an AsyncIOScheduler instance. -/
structure Scheduler where
  jobs : List Job
deriving Repr, DecidableEq

def emptySched : Scheduler := ⟨[]⟩

/-- scheduler.get_job(id): the job with that id, if present. -/
def Scheduler.getJob (s : Scheduler) (id : String) : Option Job :=
  s.jobs.find? (fun j => j.id = id)

/-- scheduler.add_job(..., replace_existing=True): atomically replaces the job
with the same id if one exists, otherwise appends; this call never raises. -/
def Scheduler.addJobReplacing (s : Scheduler) (j : Job) : Scheduler :=
  if s.jobs.any (fun o => o.id = j.id) then
    ⟨s.jobs.map (fun o => if o.id = j.id then j else o)⟩
  else ⟨s.jobs ++ [j]⟩

/-- scheduler.add_job with the default replace_existing=False: raises
ConflictingIdError if a job with the same id already exists. -/
def Scheduler.addJob (s : Scheduler) (j : Job) : Except PyExn Scheduler :=
  if s.jobs.any (fun o => o.id = j.id) then .error .conflictingIdError
  else .ok ⟨s.jobs ++ [j]⟩

/-- scheduler.remove_job(id): removes the job, raising JobLookupError when no
job with that id exists. -/
def Scheduler.removeJob (s : Scheduler) (id : String) : Except PyExn Scheduler :=
  if s.jobs.any (fun j => j.id = id) then
    .ok ⟨s.jobs.filter (fun j => j.id ≠ id)⟩
  else .error .jobLookupError

/-! ## aiogram FSM context (conversational state of the acting user) -/

/-- The FSM states declared in handlers.py:21-24 plus the cleared state. -/
inductive FsmState
  | idle
  | waitingForDeleteDuration
  | waitingForScheduledMedia
deriving Repr, DecidableEq

/-- FSM context of one user: current state plus the stored state data (the
only key ever written is schedule_time_str, handlers.py:179). -/
structure UserFsm where
  state : FsmState
  scheduleTimeStr : Option String
deriving Repr, DecidableEq

/-- state.clear(): resets the state to the default (idle) and drops the
stored data. -/
def fsmClear : UserFsm := ⟨.idle, none⟩

/-! ## Telegram transport model and utils.py -/

/-- Outcome oracle for the external bot transport: whether a send call on
this bot instance succeeds (an exception in a send is modelled by false). -/
structure Transport where
  sendOk : Bool
deriving Repr, DecidableEq

/-- Media content of an inbound Telegram message.  A photo carries its list
of sizes; Python treats an empty list as falsy, matching the getLast? use
below. -/
inductive MsgMedia
  | sticker (file_id : String)
  | animation (file_id : String)
  | photo (sizes : List String)
  | video (file_id : String)
  | other
deriving Repr, DecidableEq

structure MediaMessage where
  from_user : Int
  chat : Int
  message_id : Int
  media : MsgMedia
deriving Repr, DecidableEq

/-- utils.get_media_file_id (utils.py:7-20): file id and media type string of
a supported message, or none for the (None, None) fallthrough.  The photo
branch picks the last (largest) size, photo[-1]. -/
def get_media_file_id (m : MsgMedia) : Option (String × String) :=
  match m with
  | .sticker fid => some (fid, "sticker")
  | .animation fid => some (fid, "gif")
  | .photo sizes =>
    match sizes.getLast? with
    | some fid => some (fid, "photo")
    | none => none
  | .video fid => some (fid, "video")
  | .other => none

/-- utils.send_media_by_type (utils.py:22-39).  Its Python signature has four
required positional parameters: chat_id, media_file_id, media_type,
bot_instance.  The body dispatches on the type string; an unknown type logs a
warning and returns False; an exception from the underlying send is caught
and returns False; otherwise returns True. -/
def send_media_by_type (chat_id : Int) (media_file_id media_type : String)
    (bot_instance : Transport) : Bool :=
  if media_type = "sticker" then bot_instance.sendOk
  else if media_type = "gif" then bot_instance.sendOk
  else if media_type = "photo" then bot_instance.sendOk
  else if media_type = "video" then bot_instance.sendOk
  else false

/-- Python values, for modelling a positional call whose argument list may
not match the signature of the callee. -/
inductive PyVal
  | int (i : Int)
  | str (s : String)
  | bot (b : Transport)
  | bool (b : Bool)
deriving Repr, DecidableEq

/-- A positional Python call of utils.send_media_by_type.  The signature at
utils.py:22 declares exactly four required positional parameters with no
defaults, so any call that does not supply an int chat id, two strings and a
bot instance (in that order) raises TypeError before the body runs. -/
def send_media_by_type_call (args : List PyVal) : Except PyExn PyVal :=
  match args with
  | [.int chat_id, .str fid, .str mtype, .bot b] =>
    .ok (.bool (send_media_by_type chat_id fid mtype b))
  | _ => .error .typeError

/-! ## jobs.py -/

/-- Log line produced by a completed send job (jobs.py:19-22). -/
inductive SendLog
  | sentLogged
  | failLogged
deriving Repr, DecidableEq

/-- jobs.send_scheduled_media_job (jobs.py:16-24).  The body evaluates
utils.send_media_by_type(chat_id, media_file_id, media_type) at jobs.py:18,
passing only three positional arguments; there is no try/except in the job,
so an exception raised by the call escapes the job. -/
def send_scheduled_media_job (bot : Transport) (user_id chat_id : Int)
    (media_file_id media_type schedule_id : String) : Except PyExn SendLog :=
  match send_media_by_type_call [.int chat_id, .str media_file_id, .str media_type] with
  | .error e => .error e
  | .ok (.bool true) => .ok .sentLogged
  | .ok _ => .ok .failLogged

/-! ## handlers.py -/

/-- One constructor per message.reply / message.answer call site in the
handlers under claim, carrying the values interpolated into the reply text. -/
inductive Reply
  | usageScheduleMedia
  | schedulePrompt (time_str : String)
  | invalidTimeFormat
  | somethingWentWrong
  | unsupportedMedia
  | mediaScheduled (time_str schedule_id : String)
  | dbErrorSchedule
  | usageSetDeleteTimer
  | positiveMinutesRequired
  | deleteTimerSet (minutes : Int)
  | invalidNumber
  | deletionCancelled
  | noActiveTimer
  | noActiveTimerForChat
  | willDeleteIn (minutes : Int)
  | notFound (schedule_id : String)
  | cancelled (schedule_id : String)
deriving Repr, DecidableEq

/-- State visible to one handler invocation: the remote store (with its
failure oracle), the module-level scheduler of handlers.py:18, the FSM
context of the acting user, and the replies sent so far. -/
structure World where
  db : Option Firestore
  fail : FailSpec
  sched : Scheduler
  fsm : UserFsm
  replies : List Reply
deriving Repr, DecidableEq

/-- handlers.schedule_media_command (handlers.py:165-184).  The argument is
message.text.split(maxsplit=1)[1] when present.  A parseable time is stored
in the FSM data and the state moves to waiting_for_scheduled_media; a
strptime ValueError is reported with no state change. -/
def schedule_media_command (w : World) (arg : Option String) : World :=
  match arg with
  | none => { w with replies := w.replies ++ [.usageScheduleMedia] }
  | some time_str =>
    match strptimeHM time_str with
    | some _ =>
      { w with
          fsm := { state := .waitingForScheduledMedia, scheduleTimeStr := some time_str },
          replies := w.replies ++ [.schedulePrompt time_str] }
    | none => { w with replies := w.replies ++ [.invalidTimeFormat] }

/-- handlers.set_delete_timer_command (handlers.py:93-120).  A positive
integer argument is written into the settings document together with the
activating chat id, and the state moves to waiting_for_delete_duration. -/
def set_delete_timer_command (w : World) (user_id chat_id : Int) (arg : Option String) :
    World :=
  match arg with
  | none => { w with replies := w.replies ++ [.usageSetDeleteTimer] }
  | some a =>
    match pyInt? a with
    | none => { w with replies := w.replies ++ [.invalidNumber] }
    | some duration_minutes =>
      if duration_minutes ≤ 0 then
        { w with replies := w.replies ++ [.positiveMinutesRequired] }
      else
        let settings := get_user_settings w.db w.fail user_id
        let s1 := dictSet settings "delete_timer_minutes" duration_minutes
        let s2 := dictSet s1 "delete_timer_active_chat_id" chat_id
        { w with
            db := update_user_settings w.db w.fail user_id s2,
            fsm := { w.fsm with state := .waitingForDeleteDuration },
            replies := w.replies ++ [.deleteTimerSet duration_minutes] }

/-- handlers.cancel_delete_timer_command (handlers.py:122-135).  When the
settings dict holds delete_timer_minutes, both timer keys are deleted from
the local dict, the dict is written back via update_user_settings (a
merge-set), the FSM is cleared and a cancellation reply is sent; otherwise
the no-active-timer reply is sent and nothing changes. -/
def cancel_delete_timer_command (w : World) (user_id : Int) : World :=
  let settings := get_user_settings w.db w.fail user_id
  if (dictGet? settings "delete_timer_minutes").isSome then
    let s1 := dictDel settings "delete_timer_minutes"
    let s2 :=
      if (dictGet? s1 "delete_timer_active_chat_id").isSome then
        dictDel s1 "delete_timer_active_chat_id"
      else s1
    { w with
        db := update_user_settings w.db w.fail user_id s2,
        fsm := fsmClear,
        replies := w.replies ++ [.deletionCancelled] }
  else { w with replies := w.replies ++ [.noActiveTimer] }

/-- Deletion job built at handlers.py:153-160: id delete_msg_{chat}_{msg}_{now}
(the timestamp suffix comes from datetime.now().timestamp()), one-shot date
trigger at now + minutes (seconds), bound to delete_message_job with the
message coordinates. -/
def dmJob (chat_id message_id now mins : Int) : Job :=
  ⟨"delete_msg_" ++ toString chat_id ++ "_" ++ toString message_id ++ "_" ++ toString now,
   .date (now + mins * 60),
   .deleteMessage chat_id message_id⟩

/-- handlers.handle_media_for_deletion (handlers.py:137-163).  now is the
current clock reading in seconds.  The source guard is a single condition
(minutes is None or active chat differs); both failure cases reply, clear
the state and return.  On success a one-shot job is added with the default
replace_existing=False (a ConflictingIdError would propagate, there is no
try/except) and the FSM state is intentionally NOT cleared. -/
def handle_media_for_deletion (w : World) (m : MediaMessage) (now : Int) :
    Except PyExn World :=
  let settings := get_user_settings w.db w.fail m.from_user
  match dictGet? settings "delete_timer_minutes" with
  | none =>
    .ok { w with fsm := fsmClear, replies := w.replies ++ [.noActiveTimerForChat] }
  | some delete_timer_minutes =>
    if dictGet? settings "delete_timer_active_chat_id" ≠ some m.chat then
      .ok { w with fsm := fsmClear, replies := w.replies ++ [.noActiveTimerForChat] }
    else
      match w.sched.addJob (dmJob m.chat m.message_id now delete_timer_minutes) with
      | .error e => .error e
      | .ok s2 =>
        .ok { w with sched := s2, replies := w.replies ++ [.willDeleteIn delete_timer_minutes] }

/-- handlers.handle_scheduled_media (handlers.py:186-233).  Reads the pending
time from the FSM data; extracts the media; persists a ScheduledMediaItem;
on a non-empty assigned id parses hour and minute with map(int, split(':'))
(an uncaught ValueError would escape), registers the daily cron job
send_sch_{id} with replace_existing=True, reports the id and clears the
state; on an empty id reports a database error and clears the state. -/
def handle_scheduled_media (w : World) (m : MediaMessage) : Except PyExn World :=
  match w.fsm.scheduleTimeStr with
  | none =>
    .ok { w with fsm := fsmClear, replies := w.replies ++ [.somethingWentWrong] }
  | some schedule_time_str =>
    match get_media_file_id m.media with
    | none => .ok { w with replies := w.replies ++ [.unsupportedMedia] }
    | some (media_file_id, media_type) =>
      if media_file_id = "" then
        .ok { w with replies := w.replies ++ [.unsupportedMedia] }
      else
        let r := add_scheduled_media w.db w.fail m.from_user m.chat m.message_id
          media_file_id media_type schedule_time_str
        if r.2 = "" then
          .ok { w with
                  db := r.1,
                  fsm := fsmClear,
                  replies := w.replies ++ [.dbErrorSchedule] }
        else
          match pyMapInt2 schedule_time_str with
          | none => .error .valueError
          | some (hour, minute) =>
            .ok { w with
                    db := r.1,
                    sched := w.sched.addJobReplacing
                      ⟨"send_sch_" ++ r.2, .cron hour minute,
                       .sendScheduledMedia m.from_user m.chat media_file_id media_type r.2⟩,
                    fsm := fsmClear,
                    replies := w.replies ++ [.mediaScheduled schedule_time_str r.2] }

/-- handlers.process_cancel_schedule_id (handlers.py:256-284).  The id is
message.text.split(maxsplit=1)[1].  Ownership is checked against the list of
the requesting user; a miss replies not-found and returns.  Otherwise the
try block deletes the record (the adapter swallows store failures), removes
the scheduler job only if get_job finds it, and replies success.  Every
operation in the try block is total in this model, so the except branch
(the failure reply) is unreachable; the removeJob error arm below is dead
because it is guarded by getJob. -/
def process_cancel_schedule_id (w : World) (user_id : Int)
    (schedule_id_to_cancel : String) : World :=
  let scheduled_items := get_all_scheduled_media w.db w.fail user_id
  let found := scheduled_items.any (fun it => it.id = schedule_id_to_cancel)
  if !found then
    { w with replies := w.replies ++ [.notFound schedule_id_to_cancel] }
  else
    let db2 := delete_scheduled_media w.db w.fail user_id schedule_id_to_cancel
    let job_id := "send_sch_" ++ schedule_id_to_cancel
    let sched2 :=
      match w.sched.getJob job_id with
      | some _ =>
        match w.sched.removeJob job_id with
        | .ok s => s
        | .error _ => w.sched
      | none => w.sched
    { w with
        db := db2,
        sched := sched2,
        replies := w.replies ++ [.cancelled schedule_id_to_cancel] }

/-! ## main.py startup reconciliation -/

/-- One document yielded by the collection_group("scheduled_media") stream at
main.py:90, as seen by load_and_reschedule_media: the document id, the id of
the user document two levels up in its path, and the four fields the code
reads (each possibly missing from the document). -/
structure MediaDoc where
  docId : String
  parentUserId : String
  chat_id : Option Int
  media_file_id : Option String
  media_type : Option String
  schedule_time : Option String
deriving Repr, DecidableEq

/-- Evaluation of the bare name CronTrigger at main.py:102.  main.py imports
only AsyncIOScheduler from apscheduler and neither imports nor defines
CronTrigger, so evaluating CronTrigger(hour=..., minute=..., second=0,
timezone=...) raises NameError; the per-record except Exception handler at
main.py:117 catches it and the loop continues with the next record. -/
def evalCronTrigger (hour minute : Int) : Except PyExn Trigger :=
  .error (.nameError "CronTrigger")

/-- Body of the per-document loop of main.py:93-118 for a single document:
parse the owning user id (int(...) may raise ValueError), check that the
four required fields are present (else log and skip, counting nothing),
parse the schedule time, build the trigger (which raises NameError, see
evalCronTrigger), and only then add the job send_sch_{doc.id} with
replace_existing=True and bump the rescheduled count.  An error value is
what the two except arms at main.py:115-118 catch. -/
def rescheduleDoc (s : Scheduler) (d : MediaDoc) : Except PyExn (Scheduler × Bool) :=
  match pyInt? d.parentUserId with
  | none => .error .valueError
  | some user_id =>
    match d.chat_id, d.media_file_id, d.media_type, d.schedule_time with
    | some chat_id, some media_file_id, some media_type, some schedule_time =>
      match pyMapInt2 schedule_time with
      | none => .error .valueError
      | some (hour, minute) =>
        match evalCronTrigger hour minute with
        | .error e => .error e
        | .ok trigger =>
          .ok (s.addJobReplacing
                ⟨"send_sch_" ++ d.docId, trigger,
                 .sendScheduledMedia user_id chat_id media_file_id media_type d.docId⟩,
               true)
    | _, _, _, _ => .ok (s, false)

/-- main.load_and_reschedule_media (main.py:53-123).  Returns early when the
database handle is missing.  Otherwise iterates the collection-group stream;
each per-document exception is logged and the loop continues, so one bad
record never aborts the scan.  Returns the final scheduler state and the
count of jobs reported as rescheduled. -/
def load_and_reschedule_media (db? : Option (List MediaDoc)) (s : Scheduler) :
    Scheduler × Nat :=
  match db? with
  | none => (s, 0)
  | some docs =>
    docs.foldl
      (fun acc d =>
        match rescheduleDoc acc.1 d with
        | .ok (s2, counted) => (s2, if counted then acc.2 + 1 else acc.2)
        | .error _ => acc)
      (s, 0)

/-! ## Helper lemmas -/

theorem assocGet_assocSet {α : Type} (l : List (Int × α)) (k : Int) (v : α) :
    assocGet (assocSet l k v) k = some v := by
  unfold assocGet assocSet
  by_cases h : l.any (fun kv => decide (kv.1 = k)) = true
  · rw [if_pos h, List.find?_map]
    have hcomp :
        ((fun kv : Int × α => decide (kv.1 = k)) ∘
          (fun kv : Int × α => if kv.1 = k then (k, v) else kv)) =
        (fun kv : Int × α => decide (kv.1 = k)) := by
      funext kv
      by_cases hk : kv.1 = k <;> simp [hk]
    rw [hcomp]
    cases hfind : l.find? (fun kv => decide (kv.1 = k)) with
    | none =>
      obtain ⟨x, hx, hpx⟩ := List.any_eq_true.mp h
      rw [List.find?_eq_none] at hfind
      exact absurd hpx (hfind x hx)
    | some x0 =>
      have hp := List.find?_some hfind
      simp only [decide_eq_true_eq] at hp
      simp [hp]
  · rw [if_neg h, List.find?_append]
    have hnone : l.find? (fun kv => decide (kv.1 = k)) = none := by
      rw [List.find?_eq_none]
      intro x hx
      have := List.any_eq_false.mp (Bool.eq_false_iff.mpr (fun hh => h hh)) x hx
      simpa using this
    simp [hnone]

theorem any_id_filter_ne (l : List ScheduledItem) (sid : String) :
    (l.filter (fun it => it.id ≠ sid)).any (fun it => it.id = sid) = false := by
  rw [List.any_eq_false]
  intro x hx
  rw [List.mem_filter] at hx
  simpa using hx.2

theorem addJob_fresh (s : Scheduler) (j : Job)
    (h : s.jobs.any (fun o => o.id = j.id) = false) :
    s.addJob j = .ok ⟨s.jobs ++ [j]⟩ := by
  unfold Scheduler.addJob
  rw [h]
  rfl

/-! ## Fixtures for concrete evaluations -/

/-- A persisted scheduled media document that passes every validation of the
startup reconciliation: all four required fields present, a numeric owning
user id and a well-formed HH:MM time. -/
def reconDoc : MediaDoc :=
  ⟨"abc123", "123", some 100, some "file1", some "sticker", some "08:00"⟩

/-- A world whose user 1 is idle, over an empty available store. -/
def wIdle : World :=
  { db := some emptyFs, fail := noFailSpec, sched := emptySched,
    fsm := ⟨.idle, none⟩, replies := [] }

/-- A sample nonempty store holding data for user 1. -/
def fsSample : Firestore :=
  ⟨[(1, [("delete_timer_minutes", 5)])],
   [(1, [⟨"abc123", 2, 3, "file1", "photo", "07:00", 1⟩])], 4⟩

/-! ## Claim C2 -/

/-- C2 (code_bug evaluation): the claim says that for every persisted record
with all required fields and a parseable HH:MM, Startup Reconciliation
re-registers the daily cron job send_sch_ plus the record id.  Evaluating
load_and_reschedule_media on a fully valid record shows the code registers
no job at all and counts zero jobs as rescheduled: main.py:102 evaluates the
unimported name CronTrigger, so every valid record dies with NameError in
the per-record except handler (the skip-and-continue part of the claim does
hold, by the same handler). -/
theorem C2_reconciliation_registers_no_job :
    load_and_reschedule_media (some [reconDoc]) emptySched = (emptySched, 0) ∧
    Scheduler.getJob (load_and_reschedule_media (some [reconDoc]) emptySched).1
      "send_sch_abc123" = none := by
  decide

/-! ## Claim C3 -/

/-- C3 (code_bug evaluation): the claim says each reconciliation run adds
the job send_sch_ plus the record id with replace-existing semantics so a
second run replaces rather than duplicates it.  Evaluating two consecutive
runs over the same snapshot (one fully valid record) shows neither run adds
any job: the set of scheduler job ids is empty after one run and after two,
not the singleton the claimed mechanism would produce, because CronTrigger
is unbound in main.py and every record fails with NameError. -/
theorem C3_reconciliation_twice_adds_nothing :
    (load_and_reschedule_media (some [reconDoc]) emptySched).1 = emptySched ∧
    (load_and_reschedule_media (some [reconDoc])
        (load_and_reschedule_media (some [reconDoc]) emptySched).1).1 = emptySched ∧
    Scheduler.getJob (load_and_reschedule_media (some [reconDoc]) emptySched).1
      "send_sch_abc123" = none := by
  decide

/-! ## Claim C4 -/

/-- C4 (code_bug evaluation): the claim says the fired job invokes the
transport send with the stored (chat id, file id, media type) and completes
with a success boolean, never raising out of the job.  Evaluating the job
body shows it raises TypeError instead: jobs.py:18 calls
utils.send_media_by_type with three positional arguments while the signature
at utils.py:22 requires four (the bot instance is missing), so the send is
never invoked and the exception escapes the job, which has no handler. -/
theorem C4_send_job_raises_type_error :
    send_scheduled_media_job ⟨true⟩ 5 7 "file1" "sticker" "abc123" =
      .error .typeError := rfl

/-! ## Claim C5 -/

/-- C5: for every cancellation request whose candidate id is not among the
requesting user's own scheduled records (including an id owned by a
different user), the flow replies not-found and changes nothing: the store,
the scheduler and the FSM are exactly as before, so the true owner's record
and job are untouched. -/
theorem C5_cancel_unowned_id_changes_nothing
    (w : World) (user_id : Int) (sid : String)
    (hnot : (get_all_scheduled_media w.db w.fail user_id).any
      (fun it => it.id = sid) = false) :
    process_cancel_schedule_id w user_id sid =
      { w with replies := w.replies ++ [.notFound sid] } := by
  simp [process_cancel_schedule_id, hnot]

/-- A world in which user 2 owns the scheduled record abc123 and a matching
cron job is live, while user 1 owns nothing. -/
def wC5 : World :=
  { db := some ⟨[], [(2, [⟨"abc123", 9, 3, "file1", "sticker", "08:00", 2⟩])], 1⟩,
    fail := noFailSpec,
    sched := ⟨[⟨"send_sch_abc123", .cron 8 0,
      .sendScheduledMedia 2 9 "file1" "sticker" "abc123"⟩]⟩,
    fsm := fsmClear, replies := [] }

/-- Witness for C5: user 1 asks to cancel abc123, which belongs to user 2;
the reply is not-found and the world is unchanged apart from that reply. -/
theorem C5_cancel_unowned_id_changes_nothing_witness :
    process_cancel_schedule_id wC5 1 "abc123" =
      { wC5 with replies := wC5.replies ++ [.notFound "abc123"] } :=
  C5_cancel_unowned_id_changes_nothing wC5 1 "abc123" (by decide)

/-! ## Claim C7 -/

/-- C7 (counterexample): the claim lists "9:30" among the inputs that must
produce a validation error with no state change.  Evaluating the command on
"9:30" from the idle state shows the code accepts it: CPython strptime with
format %H:%M matches one- or two-digit components, so the handler stores the
pending time and moves the user to the waiting-for-media state with the
confirmation prompt, not a validation error. -/
theorem C7_counterexample_930_accepted :
    (schedule_media_command wIdle (some "9:30")).fsm =
      ⟨.waitingForScheduledMedia, some "9:30"⟩ ∧
    (schedule_media_command wIdle (some "9:30")).replies =
      [Reply.schedulePrompt "9:30"] := by
  decide

/-- C7 (amended): for every time-string argument that strptime with format
%H:%M rejects — no single colon, a side that is not a one- or two-digit
number, hour above 23 or minute above 59; this includes "25:00" and "abc"
but not "9:30", which is accepted as 09:30 — schedule_media reports a
validation error and the whole world except the reply list is unchanged: the
state stays IDLE, no pending time is stored and no scheduler job is ever
created. -/
theorem C7_rejected_time_changes_nothing
    (w : World) (t : String) (hbad : strptimeHM t = none) :
    schedule_media_command w (some t) =
      { w with replies := w.replies ++ [.invalidTimeFormat] } := by
  simp [schedule_media_command, hbad]

/-- Witness for the amended C7 at the malformed input "25:00". -/
theorem C7_rejected_time_changes_nothing_witness :
    schedule_media_command wIdle (some "25:00") =
      { wIdle with replies := wIdle.replies ++ [.invalidTimeFormat] } :=
  C7_rejected_time_changes_nothing wIdle "25:00" (by decide)

/-! ## Claim C9 -/

/-- A world whose user 1 has a persisted armed delete timer of 5 minutes for
chat 100 and is in the waiting-for-delete-duration state. -/
def wC9 : World :=
  { db := some ⟨[(1, [("delete_timer_minutes", 5),
                      ("delete_timer_active_chat_id", 100)])], [], 0⟩,
    fail := noFailSpec, sched := emptySched,
    fsm := ⟨.waitingForDeleteDuration, none⟩, replies := [] }

/-- C9 (code_bug evaluation): the claim says cancel_delete_timer removes both
delete-timer fields from the persisted settings.  Evaluating the command on
a user with both fields stored shows the cancellation reply is sent and the
FSM is cleared, yet both fields are still present in the persisted settings
afterwards: the handler deletes the keys only from its local dict and then
writes it back with merge semantics (db_manager.py:39, set with merge=True),
which never removes absent keys from the stored document. -/
theorem C9_cancel_leaves_timer_fields_persisted :
    (cancel_delete_timer_command wC9 1).replies = [Reply.deletionCancelled] ∧
    (cancel_delete_timer_command wC9 1).fsm = fsmClear ∧
    dictGet? (get_user_settings (cancel_delete_timer_command wC9 1).db
      (cancel_delete_timer_command wC9 1).fail 1) "delete_timer_minutes" = some 5 ∧
    dictGet? (get_user_settings (cancel_delete_timer_command wC9 1).db
      (cancel_delete_timer_command wC9 1).fail 1) "delete_timer_active_chat_id" =
      some 100 := by
  decide

/-! ## Claim C10 -/

/-- C10 (counterexample): the claim ends by asserting that at the adapter
interface an unavailable store is indistinguishable from one holding no data
for the user.  The creation operation distinguishes them: with the store
unavailable add_scheduled_media returns the empty string, while on an empty
available store the same call returns the freshly assigned document id. -/
theorem C10_counterexample_add_distinguishes :
    (add_scheduled_media none noFailSpec 1 2 3 "file1" "sticker" "08:00").2 = "" ∧
    (add_scheduled_media (some emptyFs) noFailSpec 1 2 3 "file1" "sticker" "08:00").2 =
      "doc0" ∧
    ¬ (add_scheduled_media none noFailSpec 1 2 3 "file1" "sticker" "08:00").2 =
      (add_scheduled_media (some emptyFs) noFailSpec 1 2 3 "file1" "sticker" "08:00").2 := by
  decide

/-- C10 (amended): every Record Store Adapter operation is total with the
stated defaults under both failure modes — an unavailable client handle and
a raising store call: get_user_settings returns the empty dict,
add_scheduled_media returns the empty string (and leaves the store as it
was), get_all_scheduled_media returns the empty list, and
update_user_settings and delete_scheduled_media return without effect; no
exception propagates (each embedded operation is a total function because
the source wraps every store call in a catch-all).  The read operations on
an unavailable store return the same values as on an empty available store;
creation, however, distinguishes the two by returning the empty string
instead of a fresh id. -/
theorem C10_adapter_total_with_defaults
    (db : Firestore) (fail : FailSpec) (user_id chat_id message_id : Int)
    (fid mt st mid : String) (s : Dict) :
    get_user_settings none fail user_id = [] ∧
    update_user_settings none fail user_id s = none ∧
    add_scheduled_media none fail user_id chat_id message_id fid mt st = (none, "") ∧
    get_all_scheduled_media none fail user_id = [] ∧
    delete_scheduled_media none fail user_id mid = none ∧
    (fail.getRaises = true → get_user_settings (some db) fail user_id = []) ∧
    (fail.setRaises = true →
      update_user_settings (some db) fail user_id s = some db) ∧
    (fail.addRaises = true →
      add_scheduled_media (some db) fail user_id chat_id message_id fid mt st =
        (some db, "")) ∧
    (fail.listRaises = true → get_all_scheduled_media (some db) fail user_id = []) ∧
    (fail.deleteRaises = true →
      delete_scheduled_media (some db) fail user_id mid = some db) ∧
    get_user_settings none fail user_id =
      get_user_settings (some emptyFs) noFailSpec user_id ∧
    get_all_scheduled_media none fail user_id =
      get_all_scheduled_media (some emptyFs) noFailSpec user_id := by
  refine ⟨rfl, rfl, rfl, rfl, rfl, ?_, ?_, ?_, ?_, ?_, rfl, rfl⟩ <;>
    intro h <;>
    simp [get_user_settings, update_user_settings, add_scheduled_media,
      get_all_scheduled_media, delete_scheduled_media, h]

/-- Witness for the amended C10 on a nonempty store whose every call raises. -/
theorem C10_adapter_total_with_defaults_witness :
    get_user_settings none allFailSpec 1 = [] ∧
    update_user_settings none allFailSpec 1 [("k", 7)] = none ∧
    add_scheduled_media none allFailSpec 1 2 3 "file1" "sticker" "08:00" = (none, "") ∧
    get_all_scheduled_media none allFailSpec 1 = [] ∧
    delete_scheduled_media none allFailSpec 1 "abc123" = none ∧
    (allFailSpec.getRaises = true →
      get_user_settings (some fsSample) allFailSpec 1 = []) ∧
    (allFailSpec.setRaises = true →
      update_user_settings (some fsSample) allFailSpec 1 [("k", 7)] = some fsSample) ∧
    (allFailSpec.addRaises = true →
      add_scheduled_media (some fsSample) allFailSpec 1 2 3 "file1" "sticker" "08:00" =
        (some fsSample, "")) ∧
    (allFailSpec.listRaises = true →
      get_all_scheduled_media (some fsSample) allFailSpec 1 = []) ∧
    (allFailSpec.deleteRaises = true →
      delete_scheduled_media (some fsSample) allFailSpec 1 "abc123" = some fsSample) ∧
    get_user_settings none allFailSpec 1 =
      get_user_settings (some emptyFs) noFailSpec 1 ∧
    get_all_scheduled_media none allFailSpec 1 =
      get_all_scheduled_media (some emptyFs) noFailSpec 1 :=
  C10_adapter_total_with_defaults fsSample allFailSpec 1 2 3 "file1" "sticker" "08:00"
    "abc123" [("k", 7)]

/-! ## Claim C1 -/

/-- C1: for every user in the AWAITING_MEDIA state with a stored schedule
time HH:MM, when a supported media message arrives and the record creation
returns a non-empty id, the flow registers the daily cron job with id
send_sch_ plus that id using replace-existing semantics at the stored hour
and minute, reports the assigned id to the user, and clears the state back
to IDLE. -/
theorem C1_schedule_media_success
    (w : World) (m : MediaMessage) (t fid mt sid : String) (hr mi : Int)
    (hstate : w.fsm.state = .waitingForScheduledMedia)
    (htime : w.fsm.scheduleTimeStr = some t)
    (hHM : (strptimeHM t).isSome = true)
    (hparse : pyMapInt2 t = some (hr, mi))
    (hmedia : get_media_file_id m.media = some (fid, mt))
    (hfid : ¬ fid = "")
    (hsid : (add_scheduled_media w.db w.fail m.from_user m.chat m.message_id
      fid mt t).2 = sid)
    (hne : ¬ sid = "") :
    handle_scheduled_media w m = .ok
      { w with
          db := (add_scheduled_media w.db w.fail m.from_user m.chat m.message_id
            fid mt t).1,
          sched := w.sched.addJobReplacing
            ⟨"send_sch_" ++ sid, .cron hr mi,
             .sendScheduledMedia m.from_user m.chat fid mt sid⟩,
          fsm := fsmClear,
          replies := w.replies ++ [.mediaScheduled t sid] } := by
  unfold handle_scheduled_media
  rw [htime, hmedia]
  simp only [hsid, hparse, if_neg hfid, if_neg hne]

/-- A world whose user is awaiting media for the pending time 08:00, over an
empty available store. -/
def wC1 : World :=
  { db := some emptyFs, fail := noFailSpec, sched := emptySched,
    fsm := ⟨.waitingForScheduledMedia, some "08:00"⟩, replies := [] }

def mC1 : MediaMessage := ⟨1, 2, 10, .sticker "fileA"⟩

/-- Witness for C1: a sticker arriving in the awaiting-media state is stored
as document doc0 and the job send_sch_doc0 is registered at 08:00 with the
state cleared. -/
theorem C1_schedule_media_success_witness :
    handle_scheduled_media wC1 mC1 = .ok
      { wC1 with
          db := (add_scheduled_media wC1.db wC1.fail mC1.from_user mC1.chat
            mC1.message_id "fileA" "sticker" "08:00").1,
          sched := wC1.sched.addJobReplacing
            ⟨"send_sch_" ++ "doc0", .cron 8 0,
             .sendScheduledMedia mC1.from_user mC1.chat "fileA" "sticker" "doc0"⟩,
          fsm := fsmClear,
          replies := wC1.replies ++ [.mediaScheduled "08:00" "doc0"] } :=
  C1_schedule_media_success wC1 mC1 "08:00" "fileA" "sticker" "doc0" 8 0
    rfl rfl (by decide) (by decide) rfl (by decide) (by decide) (by decide)

/-! ## Claim C6 -/

/-- A world whose user 1 owns the scheduled record abc123 while the store
delete call raises (the adapter swallows the exception). -/
def wC6 : World :=
  { db := some ⟨[], [(1, [⟨"abc123", 2, 3, "file1", "sticker", "08:00", 1⟩])], 1⟩,
    fail := { noFailSpec with deleteRaises := true },
    sched := emptySched, fsm := fsmClear, replies := [] }

/-- C6 (counterexample): the claim says success is reported only after the
durable record delete succeeds.  Evaluating the cancellation of an owned id
while the store delete call raises shows the success reply is sent although
the record is still present afterwards: delete_scheduled_media catches every
store exception and returns normally (db_manager.py:100-104), so the handler
cannot observe the failure. -/
theorem C6_counterexample_success_despite_failed_delete :
    (process_cancel_schedule_id wC6 1 "abc123").replies =
      [Reply.cancelled "abc123"] ∧
    storeHasItem (process_cancel_schedule_id wC6 1 "abc123").db 1 "abc123" = true := by
  decide

/-- C6 (amended): cancelling an owned id always reports success after the
durable delete call returns — the adapter swallows store failures, so
success can be reported even when the record was not actually deleted, but
when the store delete call does not raise the record is gone; absence of the
scheduler job send_sch_ plus id at removal time is a no-op and not an error
(the scheduler is left untouched and the success reply is still sent); and
no failure of the in-memory removal is ever surfaced, since the removal is
guarded by a lookup. -/
theorem C6_cancel_owned_best_effort
    (w : World) (user_id : Int) (sid : String)
    (hown : (get_all_scheduled_media w.db w.fail user_id).any
      (fun it => it.id = sid) = true) :
    (process_cancel_schedule_id w user_id sid).replies =
      w.replies ++ [.cancelled sid] ∧
    (w.sched.getJob ("send_sch_" ++ sid) = none →
      (process_cancel_schedule_id w user_id sid).sched = w.sched) ∧
    (w.fail.deleteRaises = false →
      storeHasItem (process_cancel_schedule_id w user_id sid).db user_id sid =
        false) := by
  refine ⟨?_, ?_, ?_⟩
  · simp [process_cancel_schedule_id, hown]
  · intro hjob
    simp [process_cancel_schedule_id, hown, hjob]
  · intro hdel
    have hgoal : storeHasItem (delete_scheduled_media w.db w.fail user_id sid)
        user_id sid = false := by
      cases hdb : w.db with
      | none =>
        rw [hdb] at hown
        simp [get_all_scheduled_media] at hown
      | some db =>
        simp only [delete_scheduled_media]
        rw [if_neg (by rw [hdel]; exact Bool.false_ne_true)]
        simp only [storeHasItem]
        rw [assocGet_assocSet]
        simp only [Option.getD_some]
        exact any_id_filter_ne _ sid
    simp only [process_cancel_schedule_id, hown, Bool.not_true, Bool.false_eq_true,
      if_false]
    exact hgoal

/-- A world whose user 1 owns the scheduled record abc123 over a
fully-working store, with no matching job in the scheduler. -/
def wC6w : World :=
  { db := some ⟨[], [(1, [⟨"abc123", 2, 3, "file1", "sticker", "08:00", 1⟩])], 1⟩,
    fail := noFailSpec, sched := emptySched, fsm := fsmClear, replies := [] }

/-- Witness for the amended C6: cancelling the owned id abc123 with no live
job replies success, leaves the scheduler untouched and deletes the record. -/
theorem C6_cancel_owned_best_effort_witness :
    (process_cancel_schedule_id wC6w 1 "abc123").replies =
      wC6w.replies ++ [.cancelled "abc123"] ∧
    (wC6w.sched.getJob ("send_sch_" ++ "abc123") = none →
      (process_cancel_schedule_id wC6w 1 "abc123").sched = wC6w.sched) ∧
    (wC6w.fail.deleteRaises = false →
      storeHasItem (process_cancel_schedule_id wC6w 1 "abc123").db 1 "abc123" =
        false) :=
  C6_cancel_owned_best_effort wC6w 1 "abc123" (by decide)

/-! ## Claim C8 -/

/-- C8: while a user is TIMER_ARMED with stored positive minutes m for the
activating chat, a media message in that chat adds exactly one one-shot
deletion job bound to that message with due time now plus m minutes, the
armed state and settings persist, and a second media message arriving later
adds a second independent one-shot job due m minutes after its own arrival
time (not additive to the first). -/
theorem C8_timer_armed_schedules_independent_jobs
    (w : World) (m1 m2 : MediaMessage) (t1 t2 mins : Int)
    (hstate : w.fsm.state = .waitingForDeleteDuration)
    (hpos : 0 < mins)
    (hmins : dictGet? (get_user_settings w.db w.fail m1.from_user)
      "delete_timer_minutes" = some mins)
    (hchat : dictGet? (get_user_settings w.db w.fail m1.from_user)
      "delete_timer_active_chat_id" = some m1.chat)
    (huser : m2.from_user = m1.from_user)
    (hchat2 : m2.chat = m1.chat)
    (hfresh1 : w.sched.jobs.any
      (fun j => j.id = (dmJob m1.chat m1.message_id t1 mins).id) = false)
    (hfresh2 : w.sched.jobs.any
      (fun j => j.id = (dmJob m2.chat m2.message_id t2 mins).id) = false)
    (hne : ¬ (dmJob m1.chat m1.message_id t1 mins).id =
      (dmJob m2.chat m2.message_id t2 mins).id) :
    ∃ w1 w2,
      handle_media_for_deletion w m1 t1 = .ok w1 ∧
      w1.sched.jobs = w.sched.jobs ++ [dmJob m1.chat m1.message_id t1 mins] ∧
      w1.fsm = w.fsm ∧ w1.db = w.db ∧ w1.fail = w.fail ∧
      w1.replies = w.replies ++ [.willDeleteIn mins] ∧
      handle_media_for_deletion w1 m2 t2 = .ok w2 ∧
      w2.sched.jobs = w.sched.jobs ++
        [dmJob m1.chat m1.message_id t1 mins, dmJob m2.chat m2.message_id t2 mins] ∧
      w2.fsm = w.fsm := by
  have step1 : handle_media_for_deletion w m1 t1 = .ok
      { w with sched := ⟨w.sched.jobs ++ [dmJob m1.chat m1.message_id t1 mins]⟩,
               replies := w.replies ++ [.willDeleteIn mins] } := by
    unfold handle_media_for_deletion
    simp only [hmins]
    rw [if_neg (fun hcon => hcon hchat)]
    rw [addJob_fresh w.sched _ hfresh1]
  have hfr : (w.sched.jobs ++ [dmJob m1.chat m1.message_id t1 mins]).any
      (fun o => o.id = (dmJob m2.chat m2.message_id t2 mins).id) = false := by
    rw [List.any_append, hfresh2]
    simp [hne]
  have step2 : handle_media_for_deletion
      { w with sched := ⟨w.sched.jobs ++ [dmJob m1.chat m1.message_id t1 mins]⟩,
               replies := w.replies ++ [.willDeleteIn mins] } m2 t2 = .ok
      { w with
          sched := ⟨(w.sched.jobs ++ [dmJob m1.chat m1.message_id t1 mins]) ++
            [dmJob m2.chat m2.message_id t2 mins]⟩,
          replies := (w.replies ++ [.willDeleteIn mins]) ++ [.willDeleteIn mins] } := by
    unfold handle_media_for_deletion
    simp only [huser, hmins]
    rw [if_neg (fun hcon => hcon (hchat2.symm ▸ hchat))]
    rw [addJob_fresh _ _ hfr]
  refine ⟨_, _, step1, rfl, rfl, rfl, rfl, rfl, step2, by simp, rfl⟩

/-- A world whose user 1 has an armed 5-minute delete timer for chat 100. -/
def wC8 : World :=
  { db := some ⟨[(1, [("delete_timer_minutes", 5),
                      ("delete_timer_active_chat_id", 100)])], [], 0⟩,
    fail := noFailSpec, sched := emptySched,
    fsm := ⟨.waitingForDeleteDuration, none⟩, replies := [] }

def mC8a : MediaMessage := ⟨1, 100, 11, .sticker "fileA"⟩

def mC8b : MediaMessage := ⟨1, 100, 12, .video "fileB"⟩

/-- Witness for C8: two media messages at times 1000 and 1060 each schedule
their own one-shot deletion job, due 300 seconds after their own arrival. -/
theorem C8_timer_armed_schedules_independent_jobs_witness :
    ∃ w1 w2,
      handle_media_for_deletion wC8 mC8a 1000 = .ok w1 ∧
      w1.sched.jobs = wC8.sched.jobs ++ [dmJob mC8a.chat mC8a.message_id 1000 5] ∧
      w1.fsm = wC8.fsm ∧ w1.db = wC8.db ∧ w1.fail = wC8.fail ∧
      w1.replies = wC8.replies ++ [.willDeleteIn 5] ∧
      handle_media_for_deletion w1 mC8b 1060 = .ok w2 ∧
      w2.sched.jobs = wC8.sched.jobs ++
        [dmJob mC8a.chat mC8a.message_id 1000 5, dmJob mC8b.chat mC8b.message_id 1060 5] ∧
      w2.fsm = wC8.fsm :=
  C8_timer_armed_schedules_independent_jobs wC8 mC8a mC8b 1000 1060 5
    rfl (by decide) (by decide) (by decide) rfl rfl (by decide) (by decide) (by decide)

end NightMode
